import Mathlib

/-!
Verification of the Papervista hybrid citation pipeline (`src/main.py`).

The Python source is shallowly embedded:
* Python `str` values become Lean `String`; the string operations the
  pipeline uses (`in`, `.strip()`, `.replace()`, `.lower()`, `.upper()`)
  are modelled over the underlying character lists (`pyIn`, `pyStrip`,
  `pyReplace`, `pyLower`, `pyUpper`).
* The pydantic schemas `CSLName`, `CSLDate`, `CitationItemSchema` become
  structures; FastAPI request-body validation becomes
  `validate_citation_item` over a raw record with optional fields.
* The external collaborators (the `citeproc` CSL processor and style-file
  lookup, and the Gemini chat-completion service together with the
  module-level `GEMINI_API_KEY` global) become explicit environments
  `CslEnv` and `LlmEnv`, so the pure control flow of
  `generate_citation_csl`, `generate_citation_llm_fallback` and
  `generate_citation_endpoint` is embedded exactly.
-/

/-! ## Python string primitives -/

/-- Test `leadsWith pat s` : `pat` is a prefix of `s` (character lists). -/
def leadsWith : List Char → List Char → Bool
  | [], _ => true
  | _ :: _, [] => false
  | a :: as, b :: bs => a == b && leadsWith as bs

/-- Test `containsPat pat s` : `pat` occurs contiguously somewhere in `s`.
Models the Python `pat in s` substring test. -/
def containsPat (pat : List Char) : List Char → Bool
  | [] => leadsWith pat []
  | c :: cs => leadsWith pat (c :: cs) || containsPat pat cs

/-- Python `sub in s` on strings. -/
def pyIn (sub s : String) : Bool := containsPat sub.data s.data

/-- Strip leading and trailing whitespace from a character list,
modelling Python `str.strip()`. -/
def stripData (l : List Char) : List Char :=
  ((l.dropWhile Char.isWhitespace).reverse.dropWhile Char.isWhitespace).reverse

/-- Python `s.strip()`. -/
def pyStrip (s : String) : String := ⟨stripData s.data⟩

/-- Replace every (non-overlapping, left-to-right) occurrence of the
non-empty pattern `pat` by `rep`.  The recursion is structural on a fuel
counter so that the kernel can evaluate it; when the fuel is at least
the length of the list (as `replaceAll` arranges) the fuel never runs
out, and on a match the matched pattern (one character via the fuel
step, the rest via `List.drop`) is skipped, exactly as Python
`str.replace` scans. -/
def replaceFuel (pat rep : List Char) : Nat → List Char → List Char
  | 0, l => l
  | _ + 1, [] => []
  | n + 1, c :: cs =>
    if leadsWith pat (c :: cs) then
      rep ++ replaceFuel pat rep n (cs.drop (pat.length - 1))
    else
      c :: replaceFuel pat rep n cs

/-- Replace every occurrence of `pat` by `rep` in `l`. -/
def replaceAll (pat rep l : List Char) : List Char :=
  replaceFuel pat rep l.length l

/-- Python `s.replace(pat, rep)`.  The pipeline only calls it with the
non-empty patterns `"` ++ "``" ++ `"`, `"json"`, `"plaintext"`; for an
empty pattern we return `s` unchanged. -/
def pyReplace (s pat rep : String) : String :=
  match pat.data with
  | [] => s
  | p :: ps => ⟨replaceAll (p :: ps) rep.data s.data⟩

/-- Python `s.lower()` (ASCII case mapping, as used for style names). -/
def pyLower (s : String) : String := ⟨s.data.map Char.toLower⟩

/-- Python `s.upper()` (ASCII case mapping, as used for style names). -/
def pyUpper (s : String) : String := ⟨s.data.map Char.toUpper⟩

/-! ## Data model (`src/main.py`, pydantic schemas) -/

/-- Schema `CSLName` (src/main.py lines 28-30): one author. -/
structure CSLName where
  family : String
  given : Option String
deriving DecidableEq, Repr

/-- Schema `CSLDate` (src/main.py lines 32-33): `date_parts` is a list of lists
of int-or-string components `[year, month?, day?]`. -/
structure CSLDate where
  date_parts : List (List (Int ⊕ String))
deriving DecidableEq, Repr

/-- Python truthiness of a `CSLDate` value.  In the source,
`csl_data.issued` is a pydantic model instance, which defines neither
`__bool__` nor `__len__`, so `not csl_data.issued` is always `False`:
the truthiness of a `CSLDate` is constantly `true`. -/
def CSLDate.pyTruthy (_ : CSLDate) : Bool := true

/-- Schema `CitationItemSchema` (src/main.py lines 35-46): the validated body of
`POST /generate/citation`. -/
structure CitationItemSchema where
  id : String
  type : String
  title : String
  author : List CSLName
  issued : CSLDate
  container_title : Option String
  volume : Option String
  issue : Option String
  page : Option String
  URL : Option String
deriving DecidableEq, Repr

/-- A raw request body before pydantic validation: every field may be
absent.  (Fields of the wrong JSON type are modelled as absent; only
presence/absence matters to the claims.) -/
structure RawCitationItem where
  id : Option String
  type : Option String
  title : Option String
  author : Option (List CSLName)
  issued : Option CSLDate
  container_title : Option String
  volume : Option String
  issue : Option String
  page : Option String
  URL : Option String
deriving DecidableEq, Repr

/-- Pydantic validation of `CitationItemSchema`: `id`, `title`, `author`
and `issued` are required (no defaults); `type` defaults to
`"article-journal"`; the remaining fields default to `None`.  FastAPI
performs this validation before the endpoint body runs. -/
def validate_citation_item (raw : RawCitationItem) :
    Except String CitationItemSchema :=
  match raw.id, raw.title, raw.author, raw.issued with
  | some i, some t, some a, some d =>
    .ok { id := i
          type := raw.type.getD "article-journal"
          title := t
          author := a
          issued := d
          container_title := raw.container_title
          volume := raw.volume
          issue := raw.issue
          page := raw.page
          URL := raw.URL }
  | _, _, _, _ => .error "request body failed CitationItemSchema validation"

/-! ## External collaborators as environments -/

/-- Environment for the rules engine: the style-file store and the
`citeproc` CSL processor (src/main.py lines 118-131).
`path_exists` models `os.path.exists`; `process item style` models
building `CiteProcJSON` from the serialized item, loading the style, and
collecting `bib.bibliography()`: `some out` is `str(...)` of the first
bibliography entry, `none` covers both an empty bibliography and an
exception inside the `try` block. -/
structure CslEnv where
  path_exists : String → Bool
  process : CitationItemSchema → String → Option String

/-- Path `style_path` (src/main.py line 119): `os.path.join("csl_styles",
f"{style_name}.csl")`. -/
def style_path (style_name : String) : String :=
  "csl_styles/" ++ style_name ++ ".csl"

/-- Environment for the LLM fallback: `gemini_api_key` models the
module-level `GEMINI_API_KEY` global (hardcoded to a non-empty literal in
the source, read from ambient state by the function);
`chat_completion item style` models the
`client.chat.completions.create` call with the prompt built from the
serialized item data and `style` — `.ok content` is the response message
content, `.error e` is a raised exception rendered as `str(e)`. -/
structure LlmEnv where
  gemini_api_key : String
  chat_completion : CitationItemSchema → String → Except String String

/-! ## The three pipeline functions (src/main.py) -/

/-- Function `generate_citation_csl` (src/main.py lines 111-139), the rules-based
core.  The source guard is
`if not csl_data.author or not csl_data.title or not csl_data.issued`;
`not` of a list is the emptiness test, `not` of a string is the
empty-string test, and `not` of the pydantic `CSLDate` instance is
constantly `False` (`CSLDate.pyTruthy`). -/
def generate_citation_csl (env : CslEnv) (csl_data : CitationItemSchema)
    (style_name : String) : String :=
  if csl_data.author.isEmpty || csl_data.title == "" || !csl_data.issued.pyTruthy then
    "CRITICAL_MISSING_DATA"
  else if !env.path_exists (style_path style_name) then
    "CSL_STYLE_NOT_FOUND"
  else
    match env.process csl_data style_name with
    | some out => out
    | none => "CSL_PROCESSING_FAILED"

/-- Function `generate_citation_llm_fallback` (src/main.py lines 143-177).  On a
successful service reply the content is stripped and the markers
triple-backtick, `"json"` and `"plaintext"` are each removed by
`str.replace` with the empty string. -/
def generate_citation_llm_fallback (env : LlmEnv)
    (data : CitationItemSchema) (style : String) : String :=
  if env.gemini_api_key == "" then
    "LLM_ERROR: API key not configured."
  else
    match env.chat_completion data style with
    | .error e => "LLM_ERROR: Could not generate citation. " ++ e
    | .ok content =>
      pyReplace (pyReplace (pyReplace (pyStrip content) "```" "") "json" "") "plaintext" ""

/-- The orchestrator branch condition (src/main.py line 191):
`"CRITICAL_MISSING_DATA" in fc or "FAILED" in fc or "NOT_FOUND" in fc`,
deciding whether the CSL output counts as a failure and the LLM fallback
is invoked. -/
def fallback_condition (fc : String) : Bool :=
  pyIn "CRITICAL_MISSING_DATA" fc || pyIn "FAILED" fc || pyIn "NOT_FOUND" fc

/-- Outcome of one request to `POST /generate/citation`: a JSON body
`{style, citation, source, source_id}` or a raised `HTTPException`. -/
inductive EndpointResult where
  | ok (style citation source source_id : String)
  | httpError (status : Nat) (detail : String)
deriving DecidableEq, Repr

/-- Function `generate_citation_endpoint` (src/main.py lines 181-215), the hybrid
orchestrator, for a body that passed validation. -/
def generate_citation_endpoint (csl : CslEnv) (llm : LlmEnv)
    (item : CitationItemSchema) (style : String) : EndpointResult :=
  let formatted_citation := generate_citation_csl csl item (pyLower style)
  if fallback_condition formatted_citation then
    let fallback_citation := generate_citation_llm_fallback llm item style
    if pyIn "LLM_ERROR" fallback_citation then
      .httpError 500 ("Both CSL and LLM systems failed: " ++ fallback_citation)
    else
      .ok (pyUpper style) fallback_citation "LLM_FALLBACK (Intelligent Guess)" item.id
  else
    .ok (pyUpper style) formatted_citation "CSL_RULES (High Accuracy)" item.id

/-- The full request handler: FastAPI validates the raw body against
`CitationItemSchema` and rejects an invalid body with a 422 response
before `generate_citation_endpoint` runs. -/
def handle_generate_citation (csl : CslEnv) (llm : LlmEnv)
    (raw : RawCitationItem) (style : String) : EndpointResult :=
  match validate_citation_item raw with
  | .error e => .httpError 422 e
  | .ok item => generate_citation_endpoint csl llm item style

/-- Observable: whether this request reaches the LLM fallback call inside
`generate_citation_endpoint` (the branch at src/main.py line 191). -/
def fallback_invoked (csl : CslEnv) (item : CitationItemSchema)
    (style : String) : Bool :=
  fallback_condition (generate_citation_csl csl item (pyLower style))

/-- Observable: whether the LLM fallback is reached when handling a raw
request (it is never reached when validation fails). -/
def handle_fallback_invoked (csl : CslEnv) (raw : RawCitationItem)
    (style : String) : Bool :=
  match validate_citation_item raw with
  | .error _ => false
  | .ok item => fallback_invoked csl item style

/-! ## Concrete fixtures (records and environments used as witnesses) -/

/-- A fully renderable record (spec Scenario A). -/
def itemFull : CitationItemSchema :=
  { id := "X1"
    type := "article-journal"
    title := "Attention Is All You Need"
    author := [{ family := "Vaswani", given := some "Ashish" }]
    issued := { date_parts := [[Sum.inl 2017]] }
    container_title := none, volume := none, issue := none, page := none
    URL := none }

/-- A record with non-empty authors and title whose `issued.date_parts`
carries no year component. -/
def itemNoYear : CitationItemSchema :=
  { id := "X1"
    type := "article-journal"
    title := "Attention Is All You Need"
    author := [{ family := "Vaswani", given := some "Ashish" }]
    issued := { date_parts := [[]] }
    container_title := none, volume := none, issue := none, page := none
    URL := none }

/-- A record with empty authors, empty title and empty date parts (spec
Scenario B). -/
def itemEmpty : CitationItemSchema :=
  { id := "X2"
    type := "article-journal"
    title := ""
    author := []
    issued := { date_parts := [] }
    container_title := none, volume := none, issue := none, page := none
    URL := none }

/-- A raw request body whose required `title` field is absent, so
pydantic validation fails. -/
def rawNoTitle : RawCitationItem :=
  { id := some "X3"
    type := none
    title := none
    author := some [{ family := "Smith", given := none }]
    issued := some { date_parts := [[Sum.inl 2020]] }
    container_title := none, volume := none, issue := none, page := none
    URL := none }

/-- A rules environment in which only the `apa` style file exists and
the CSL processor returns the given bibliography entry. -/
def cslApa (out : String) : CslEnv :=
  { path_exists := fun p => p == style_path "apa"
    process := fun _ _ => some out }

/-- A rules environment with no style files and a processor producing
no entries. -/
def cslDown : CslEnv :=
  { path_exists := fun _ => false
    process := fun _ _ => none }

/-- An LLM environment that answers every prompt with `c`. -/
def llmGood (c : String) : LlmEnv :=
  { gemini_api_key := "k"
    chat_completion := fun _ _ => .ok c }

/-- An LLM environment whose service call raises (for example, the
service is unreachable). -/
def llmDown : LlmEnv :=
  { gemini_api_key := "k"
    chat_completion := fun _ _ => .error "connection refused" }

/-- An LLM environment with no credential configured. -/
def llmNoKey : LlmEnv :=
  { gemini_api_key := ""
    chat_completion := fun _ _ => .ok "never reached" }

/-- An LLM environment whose reply is wrapped in a tagged code fence and
also mentions the word json inside the citation text. -/
def llmFence : LlmEnv :=
  { gemini_api_key := "k"
    chat_completion := fun _ _ => .ok "```json\nSmith, J. (2020). A json guide.\n```" }

/-! ## Helper lemmas about the string primitives -/

theorem strData_append (s t : String) : (s ++ t).data = s.data ++ t.data := rfl

theorem leadsWith_self (l : List Char) : leadsWith l l = true := by
  induction l with
  | nil => rfl
  | cons a as ih => simp [leadsWith, ih]

theorem leadsWith_append {pat l : List Char} (t : List Char)
    (h : leadsWith pat l = true) : leadsWith pat (l ++ t) = true := by
  induction pat generalizing l with
  | nil => rfl
  | cons a as ih =>
    cases l with
    | nil => simp [leadsWith] at h
    | cons b bs =>
      simp only [leadsWith, Bool.and_eq_true, beq_iff_eq] at h
      simp only [List.cons_append, leadsWith, Bool.and_eq_true, beq_iff_eq]
      exact ⟨h.1, ih h.2⟩

theorem containsPat_of_leadsWith {pat l : List Char}
    (h : leadsWith pat l = true) : containsPat pat l = true := by
  cases l with
  | nil => simpa [containsPat] using h
  | cons c cs => simp [containsPat, h]

theorem replaceFuel_nil (pat rep : List Char) (n : Nat) :
    replaceFuel pat rep n [] = [] := by
  cases n <;> rfl

theorem replaceFuel_fuel_irrel (pat rep : List Char) :
    ∀ (n : Nat) (m : Nat) (l : List Char), l.length ≤ n → l.length ≤ m →
      replaceFuel pat rep n l = replaceFuel pat rep m l := by
  intro n
  induction n with
  | zero =>
    intro m l hn _
    have hl : l = [] := List.length_eq_zero.mp (Nat.le_zero.mp hn)
    subst hl
    rw [replaceFuel_nil, replaceFuel_nil]
  | succ n ih =>
    intro m l hn hm
    cases l with
    | nil => rw [replaceFuel_nil, replaceFuel_nil]
    | cons c cs =>
      cases m with
      | zero => simp at hm
      | succ m =>
        simp only [List.length_cons, Nat.succ_le_succ_iff] at hn hm
        simp only [replaceFuel]
        by_cases hl : leadsWith pat (c :: cs) = true
        · rw [if_pos hl, if_pos hl]
          congr 1
          apply ih
          · simp only [List.length_drop]
            omega
          · simp only [List.length_drop]
            omega
        · rw [if_neg hl, if_neg hl]
          congr 1
          exact ih m cs hn hm

theorem replaceAll_append_self (p : Char) (ps rep rest : List Char) :
    replaceAll (p :: ps) rep ((p :: ps) ++ rest) =
      rep ++ replaceAll (p :: ps) rep rest := by
  have hl : leadsWith (p :: ps) (p :: (ps ++ rest)) = true := by
    have := leadsWith_append rest (leadsWith_self (p :: ps))
    simpa using this
  unfold replaceAll
  rw [List.cons_append]
  have hlen : (p :: (ps ++ rest)).length = (ps ++ rest).length + 1 := by simp
  rw [hlen]
  simp only [replaceFuel]
  rw [if_pos hl]
  congr 1
  have hdrop : (ps ++ rest).drop ((p :: ps).length - 1) = rest := by
    simp only [List.length_cons, Nat.add_sub_cancel]
    exact List.drop_left ps rest
  rw [hdrop]
  apply replaceFuel_fuel_irrel
  · simp only [List.length_append]
    omega
  · exact Nat.le_refl _

theorem replaceFuel_append_of_disjoint (p : Char) (ps rep : List Char) :
    ∀ (mid rest : List Char) (n : Nat), (∀ a ∈ p :: ps, a ∉ mid) →
      (mid ++ rest).length ≤ n →
      replaceFuel (p :: ps) rep n (mid ++ rest) =
        mid ++ replaceFuel (p :: ps) rep (n - mid.length) rest := by
  intro mid
  induction mid with
  | nil =>
    intro rest n _ _
    simp
  | cons c mid' ih =>
    intro rest n h hn
    cases n with
    | zero =>
      simp at hn
    | succ n =>
      have hpc : (p == c) = false := by
        have hne : p ≠ c := by
          intro e
          exact h p (List.mem_cons_self p ps) (by simp [e])
        simpa using hne
      have hl : leadsWith (p :: ps) (c :: (mid' ++ rest)) = false := by
        simp [leadsWith, hpc]
      have h' : ∀ a ∈ p :: ps, a ∉ mid' := by
        intro a ha hm
        exact h a ha (List.mem_cons_of_mem c hm)
      have hn' : (mid' ++ rest).length ≤ n := by
        simp only [List.cons_append, List.length_cons, Nat.succ_le_succ_iff] at hn
        exact hn
      rw [List.cons_append]
      simp only [replaceFuel]
      rw [if_neg (by simp [hl]), ih rest n h' hn']
      simp [Nat.succ_sub_succ]

theorem replaceAll_append_of_disjoint (p : Char) (ps rep : List Char)
    {mid : List Char} (rest : List Char) (h : ∀ a ∈ p :: ps, a ∉ mid) :
    replaceAll (p :: ps) rep (mid ++ rest) =
      mid ++ replaceAll (p :: ps) rep rest := by
  unfold replaceAll
  rw [replaceFuel_append_of_disjoint p ps rep mid rest (mid ++ rest).length h
    (Nat.le_refl _)]
  congr 1
  have hlen : (mid ++ rest).length - mid.length = rest.length := by
    simp only [List.length_append]
    omega
  rw [hlen]

theorem replaceFuel_of_not_contains (p : Char) (ps rep : List Char) :
    ∀ (l : List Char) (n : Nat), containsPat (p :: ps) l = false →
      l.length ≤ n → replaceFuel (p :: ps) rep n l = l := by
  intro l
  induction l with
  | nil => intro n _ _; exact replaceFuel_nil _ _ _
  | cons c cs ih =>
    intro n h hn
    cases n with
    | zero =>
      simp at hn
    | succ n =>
      simp only [containsPat, Bool.or_eq_false_iff] at h
      simp only [List.length_cons, Nat.succ_le_succ_iff] at hn
      simp only [replaceFuel]
      rw [if_neg (by simp [h.1]), ih n h.2 hn]

theorem replaceAll_of_not_contains (p : Char) (ps rep : List Char)
    {l : List Char} (h : containsPat (p :: ps) l = false) :
    replaceAll (p :: ps) rep l = l :=
  replaceFuel_of_not_contains p ps rep l l.length h (Nat.le_refl _)

theorem stripData_ends (c d : Char) (hc : c.isWhitespace = false)
    (hd : d.isWhitespace = false) (m : List Char) :
    stripData (c :: (m ++ [d])) = c :: (m ++ [d]) := by
  have h1 : (c :: (m ++ [d])).dropWhile Char.isWhitespace = c :: (m ++ [d]) := by
    simp [List.dropWhile, hc]
  have hrev : (c :: (m ++ [d])).reverse = d :: (m.reverse ++ [c]) := by
    simp
  have h2 : (d :: (m.reverse ++ [c])).dropWhile Char.isWhitespace =
      d :: (m.reverse ++ [c]) := by
    simp [List.dropWhile, hd]
  unfold stripData
  rw [h1, hrev, h2, ← hrev]
  exact List.reverse_reverse _

theorem string_ne_empty_of_data {s : String} (h : s.data ≠ []) : s ≠ "" := by
  intro e
  exact h (by rw [e])

/-! ## Claim C1 -/

/-- Claim C1, counterexample to the claim as stated: a record with
non-empty authors and non-empty title whose `issued.date_parts` has no
year component is claimed to make render return the `MissingData`
failure and never a citation string; instead `generate_citation_csl`
passes it to the CSL processor and returns the processor's citation
string.  The source check `not csl_data.issued` can never fire, because
a pydantic model instance is always truthy. -/
theorem C1_counterexample :
    generate_citation_csl (cslApa "Vaswani, A. (n.d.). Attention Is All You Need.")
        itemNoYear "apa" = "Vaswani, A. (n.d.). Attention Is All You Need." ∧
    "Vaswani, A. (n.d.). Attention Is All You Need." ≠ "CRITICAL_MISSING_DATA" := by
  decide

/-- Claim C1 (amended): `generate_citation_csl` returns the
`CRITICAL_MISSING_DATA` failure iff the record's author list is empty or
its title is empty; the year component of `issued` plays no role (the
source's `not csl_data.issued` test is constantly false).  The
hypothesis says the CSL processor's own output is never the literal
sentinel string, separating a real bibliography entry from the failure
marker. -/
theorem C1_missing_data_iff (env : CslEnv) (item : CitationItemSchema)
    (style : String)
    (hp : ∀ r s out, env.process r s = some out → out ≠ "CRITICAL_MISSING_DATA") :
    generate_citation_csl env item style = "CRITICAL_MISSING_DATA" ↔
      item.author = [] ∨ item.title = "" := by
  unfold generate_citation_csl
  by_cases hb : (item.author.isEmpty || item.title == "" || !item.issued.pyTruthy) = true
  · rw [if_pos hb]
    simp only [CSLDate.pyTruthy, Bool.not_true, Bool.or_false, Bool.or_eq_true,
      List.isEmpty_iff, beq_iff_eq] at hb
    exact ⟨fun _ => hb, fun _ => rfl⟩
  · rw [if_neg hb]
    simp only [CSLDate.pyTruthy, Bool.not_true, Bool.or_false, Bool.or_eq_true,
      List.isEmpty_iff, beq_iff_eq] at hb
    push_neg at hb
    constructor
    · intro h
      by_cases hs : (!env.path_exists (style_path style)) = true
      · rw [if_pos hs] at h
        exact absurd h (by decide)
      · rw [if_neg hs] at h
        cases hproc : env.process item style with
        | none =>
          rw [hproc] at h
          exact absurd h (by decide)
        | some out =>
          rw [hproc] at h
          exact absurd h (hp item style out hproc)
    · intro h
      rcases h with h | h
      · exact absurd h hb.1
      · exact absurd h hb.2

/-- Witness for C1: the amended theorem applied at a concrete record
with empty authors and a concrete environment. -/
theorem C1_missing_data_iff_witness :
    generate_citation_csl (cslApa "Smith, J. (2020). T.") itemEmpty "apa" =
      "CRITICAL_MISSING_DATA" :=
  (C1_missing_data_iff (cslApa "Smith, J. (2020). T.") itemEmpty "apa"
    (by
      intro r s out h
      simp only [cslApa, Option.some.injEq] at h
      rw [← h]
      decide)).mpr (Or.inl rfl)

/-! ## Claim C2 -/

/-- Claim C2, counterexample to the claim as stated: in a run where the
rules engine failed with the unknown-style cause `CSL_STYLE_NOT_FOUND`
and the fallback also failed, the surfaced detail carries only the
fallback cause after a fixed prefix — the rules-engine cause appears
nowhere in the detail, so the message does not carry both underlying
causes. -/
theorem C2_counterexample :
    generate_citation_csl cslDown itemFull (pyLower "apa") = "CSL_STYLE_NOT_FOUND" ∧
    generate_citation_endpoint cslDown llmDown itemFull "apa" =
      .httpError 500
        "Both CSL and LLM systems failed: LLM_ERROR: Could not generate citation. connection refused" ∧
    pyIn "CSL_STYLE_NOT_FOUND"
      "Both CSL and LLM systems failed: LLM_ERROR: Could not generate citation. connection refused" = false ∧
    pyIn "NOT_FOUND"
      "Both CSL and LLM systems failed: LLM_ERROR: Could not generate citation. connection refused" = false := by
  decide

/-- Claim C2 (amended): when both strategies fail, the orchestrator
raises a single server-side HTTP 500 failure whose detail is the fixed
prefix `Both CSL and LLM systems failed: ` concatenated with the
fallback-generator failure message alone; the rules-engine failure cause
is not included in the detail. -/
theorem C2_both_failed_detail (csl : CslEnv) (llm : LlmEnv)
    (item : CitationItemSchema) (style : String)
    (hr : fallback_condition (generate_citation_csl csl item (pyLower style)) = true)
    (hf : pyIn "LLM_ERROR" (generate_citation_llm_fallback llm item style) = true) :
    generate_citation_endpoint csl llm item style =
      .httpError 500 ("Both CSL and LLM systems failed: " ++
        generate_citation_llm_fallback llm item style) := by
  simp [generate_citation_endpoint, hr, hf]

/-- Witness for C2: the amended theorem applied at a concrete
both-failed run. -/
theorem C2_both_failed_detail_witness :
    generate_citation_endpoint cslDown llmDown itemEmpty "apa" =
      .httpError 500 ("Both CSL and LLM systems failed: " ++
        generate_citation_llm_fallback llmDown itemEmpty "apa") :=
  C2_both_failed_detail cslDown llmDown itemEmpty "apa" (by decide) (by decide)

/-! ## Claim C3 -/

/-- Claim C3, counterexample to the claim as stated: the rules engine
returns the citation string `Why We FAILED: Lessons, J. (2020).`, which
is none of the three failure sentinels (a success), yet the orchestrator
invokes the fallback and answers with the fallback source tag, because
the failure check is a substring test and the citation contains the word
FAILED. -/
theorem C3_counterexample :
    generate_citation_csl (cslApa "Why We FAILED: Lessons, J. (2020).")
        itemFull (pyLower "apa") = "Why We FAILED: Lessons, J. (2020)." ∧
    "Why We FAILED: Lessons, J. (2020)." ≠ "CRITICAL_MISSING_DATA" ∧
    "Why We FAILED: Lessons, J. (2020)." ≠ "CSL_STYLE_NOT_FOUND" ∧
    "Why We FAILED: Lessons, J. (2020)." ≠ "CSL_PROCESSING_FAILED" ∧
    generate_citation_endpoint (cslApa "Why We FAILED: Lessons, J. (2020).")
        (llmGood "llm citation") itemFull "apa" =
      .ok "APA" "llm citation" "LLM_FALLBACK (Intelligent Guess)" "X1" ∧
    fallback_invoked (cslApa "Why We FAILED: Lessons, J. (2020).") itemFull "apa" = true := by
  decide

/-- Claim C3 (amended): for every input whose rules-engine output
contains none of the three failure markers `CRITICAL_MISSING_DATA`,
`FAILED`, `NOT_FOUND` as a substring, the orchestrator's terminal state
is the rules result: status ok, source tag `CSL_RULES (High Accuracy)`,
citation exactly the rules output, and the fallback is not invoked. -/
theorem C3_rules_success_propagates (csl : CslEnv) (llm : LlmEnv)
    (item : CitationItemSchema) (style : String)
    (h : fallback_condition (generate_citation_csl csl item (pyLower style)) = false) :
    generate_citation_endpoint csl llm item style =
      .ok (pyUpper style) (generate_citation_csl csl item (pyLower style))
        "CSL_RULES (High Accuracy)" item.id ∧
    fallback_invoked csl item style = false := by
  constructor
  · simp [generate_citation_endpoint, h]
  · simpa [fallback_invoked] using h

/-- Witness for C3: the amended theorem applied at a concrete clean
rules success. -/
theorem C3_rules_success_propagates_witness :
    generate_citation_endpoint (cslApa "Vaswani, A. (2017). Attention Is All You Need.")
        (llmGood "unused") itemFull "apa" =
      .ok (pyUpper "apa")
        (generate_citation_csl (cslApa "Vaswani, A. (2017). Attention Is All You Need.")
          itemFull (pyLower "apa"))
        "CSL_RULES (High Accuracy)" itemFull.id ∧
    fallback_invoked (cslApa "Vaswani, A. (2017). Attention Is All You Need.")
      itemFull "apa" = false :=
  C3_rules_success_propagates (cslApa "Vaswani, A. (2017). Attention Is All You Need.")
    (llmGood "unused") itemFull "apa" (by decide)

/-! ## Claim C4 -/

/-- Claim C4, counterexample to the claim as stated: a raw request whose
required `title` field is absent is claimed to proceed directly to the
Fallback Generator; instead the request is aborted before the
orchestrator runs, with a client-side 422 validation failure, and the
fallback is never invoked. -/
theorem C4_counterexample :
    handle_generate_citation cslDown llmDown rawNoTitle "apa" =
      .httpError 422 "request body failed CitationItemSchema validation" ∧
    handle_fallback_invoked cslDown rawNoTitle "apa" = false := by
  decide

/-- Claim C4 (amended): when the raw request body fails
`CitationItemSchema` validation (a required field among id, title,
author, issued absent), the framework rejects the request with a
client-side 422 error before the orchestrator runs, and the Fallback
Generator is not invoked.  (Records that pass validation but carry an
empty author list or empty title do reach the fallback, via the rules
engine's missing-data failure.) -/
theorem C4_validation_rejects (csl : CslEnv) (llm : LlmEnv)
    (raw : RawCitationItem) (style e : String)
    (h : validate_citation_item raw = .error e) :
    handle_generate_citation csl llm raw style = .httpError 422 e ∧
    handle_fallback_invoked csl raw style = false := by
  unfold handle_generate_citation handle_fallback_invoked
  rw [h]
  exact ⟨rfl, rfl⟩

/-- Witness for C4: the amended theorem applied at a concrete raw body
missing its title. -/
theorem C4_validation_rejects_witness :
    handle_generate_citation cslDown llmDown rawNoTitle "mla" =
      .httpError 422 "request body failed CitationItemSchema validation" ∧
    handle_fallback_invoked cslDown rawNoTitle "mla" = false :=
  C4_validation_rejects cslDown llmDown rawNoTitle "mla"
    "request body failed CitationItemSchema validation" rfl

/-! ## Claim C5 -/

/-- Claim C5, counterexample to the claim as stated: for a request whose
style `klingon` has no style definition but whose record has empty
authors, the rules engine does not fail with the unknown-style cause
`CSL_STYLE_NOT_FOUND`; the missing-data check fires first and it fails
with `CRITICAL_MISSING_DATA`. -/
theorem C5_counterexample :
    cslDown.path_exists (style_path (pyLower "klingon")) = false ∧
    generate_citation_csl cslDown itemEmpty (pyLower "klingon") =
      "CRITICAL_MISSING_DATA" ∧
    "CRITICAL_MISSING_DATA" ≠ "CSL_STYLE_NOT_FOUND" := by
  decide

/-- Claim C5 (amended): for every request whose (lowercased) style name
has no style definition, the rules engine fails — with the
unknown-style sentinel when the record passes the missing-data check,
and with the missing-data sentinel otherwise — and the orchestrator's
result is either an ok response with the fallback source tag or an
HTTP 500 failure; it is never an ok response with the rules source
tag. -/
theorem C5_unknown_style_never_rules (csl : CslEnv) (llm : LlmEnv)
    (item : CitationItemSchema) (style : String)
    (h : csl.path_exists (style_path (pyLower style)) = false) :
    (generate_citation_csl csl item (pyLower style) = "CSL_STYLE_NOT_FOUND" ∨
     generate_citation_csl csl item (pyLower style) = "CRITICAL_MISSING_DATA") ∧
    ((∃ c, generate_citation_endpoint csl llm item style =
        .ok (pyUpper style) c "LLM_FALLBACK (Intelligent Guess)" item.id) ∨
     (∃ d, generate_citation_endpoint csl llm item style = .httpError 500 d)) := by
  have hfc : generate_citation_csl csl item (pyLower style) = "CSL_STYLE_NOT_FOUND" ∨
      generate_citation_csl csl item (pyLower style) = "CRITICAL_MISSING_DATA" := by
    unfold generate_citation_csl
    by_cases hb : (item.author.isEmpty || item.title == "" || !item.issued.pyTruthy) = true
    · right
      rw [if_pos hb]
    · left
      rw [if_neg hb, if_pos (by simp [h])]
  have hcond : fallback_condition (generate_citation_csl csl item (pyLower style)) = true := by
    rcases hfc with h1 | h1 <;> rw [h1] <;> decide
  refine ⟨hfc, ?_⟩
  by_cases hllm : pyIn "LLM_ERROR" (generate_citation_llm_fallback llm item style) = true
  · right
    exact ⟨"Both CSL and LLM systems failed: " ++
      generate_citation_llm_fallback llm item style,
      by simp [generate_citation_endpoint, hcond, hllm]⟩
  · left
    exact ⟨generate_citation_llm_fallback llm item style,
      by simp [generate_citation_endpoint, hcond, hllm]⟩

/-- Witness for C5: the amended theorem applied at a concrete unknown
style. -/
theorem C5_unknown_style_never_rules_witness :
    (generate_citation_csl cslDown itemFull (pyLower "klingon") = "CSL_STYLE_NOT_FOUND" ∨
     generate_citation_csl cslDown itemFull (pyLower "klingon") = "CRITICAL_MISSING_DATA") ∧
    ((∃ c, generate_citation_endpoint cslDown (llmGood "fallback citation") itemFull "klingon" =
        .ok (pyUpper "klingon") c "LLM_FALLBACK (Intelligent Guess)" itemFull.id) ∨
     (∃ d, generate_citation_endpoint cslDown (llmGood "fallback citation") itemFull "klingon" =
        .httpError 500 d)) :=
  C5_unknown_style_never_rules cslDown (llmGood "fallback citation") itemFull "klingon" rfl

/-! ## Claim C6 -/

/-- Claim C6: when the generative service is misconfigured (no
credential) or its call raises (unreachable or erroring service), the
fallback returns an `LLM_ERROR` failure string carrying the underlying
cause — never an empty citation presented as a success — and whenever
the fallback path is taken, the orchestrator surfaces that failure as an
HTTP 500 rather than packaging it as a successful citation result. -/
theorem C6_fallback_failure (llm : LlmEnv) (item : CitationItemSchema)
    (style : String)
    (h : llm.gemini_api_key = "" ∨ ∃ e, llm.chat_completion item style = .error e) :
    (generate_citation_llm_fallback llm item style =
        "LLM_ERROR: API key not configured." ∨
     ∃ e, llm.chat_completion item style = .error e ∧
       generate_citation_llm_fallback llm item style =
         "LLM_ERROR: Could not generate citation. " ++ e) ∧
    generate_citation_llm_fallback llm item style ≠ "" ∧
    pyIn "LLM_ERROR" (generate_citation_llm_fallback llm item style) = true ∧
    ∀ csl : CslEnv, fallback_invoked csl item style = true →
      generate_citation_endpoint csl llm item style =
        .httpError 500 ("Both CSL and LLM systems failed: " ++
          generate_citation_llm_fallback llm item style) := by
  have hchar : generate_citation_llm_fallback llm item style =
      "LLM_ERROR: API key not configured." ∨
      ∃ e, llm.chat_completion item style = .error e ∧
        generate_citation_llm_fallback llm item style =
          "LLM_ERROR: Could not generate citation. " ++ e := by
    by_cases hkey : llm.gemini_api_key = ""
    · left
      simp [generate_citation_llm_fallback, hkey]
    · right
      rcases h with h | ⟨e, he⟩
      · exact absurd h hkey
      · exact ⟨e, he, by simp [generate_citation_llm_fallback, hkey, he]⟩
  have hne : generate_citation_llm_fallback llm item style ≠ "" := by
    rcases hchar with h1 | ⟨e, _, h1⟩ <;> rw [h1]
    · decide
    · apply string_ne_empty_of_data
      rw [strData_append]
      intro hnil
      have := (List.append_eq_nil.mp hnil).1
      simp at this
  have hin : pyIn "LLM_ERROR" (generate_citation_llm_fallback llm item style) = true := by
    rcases hchar with h1 | ⟨e, _, h1⟩ <;> rw [h1]
    · decide
    · show containsPat ("LLM_ERROR".data)
        ("LLM_ERROR: Could not generate citation. " ++ e).data = true
      rw [strData_append]
      apply containsPat_of_leadsWith
      apply leadsWith_append
      decide
  refine ⟨hchar, hne, hin, ?_⟩
  intro csl hinv
  unfold fallback_invoked at hinv
  simp [generate_citation_endpoint, hinv, hin]

/-- Witness for C6: the theorem applied at a concrete environment with
no API key configured; the orchestrator surfaces the 500 failure. -/
theorem C6_fallback_failure_witness :
    generate_citation_endpoint cslDown llmNoKey itemFull "apa" =
      .httpError 500 ("Both CSL and LLM systems failed: " ++
        generate_citation_llm_fallback llmNoKey itemFull "apa") :=
  (C6_fallback_failure llmNoKey itemFull "apa" (Or.inl rfl)).2.2.2 cslDown (by decide)

/-! ## Claim C7 -/

/-- Claim C7, counterexample to the claim as stated: the fallback reply
arrives wrapped in a tagged code fence around the citation
`Smith, J. (2020). A json guide.`; stripping only the enclosing fence
and language tag would return the inner text unchanged, but the
post-processing removes the interior occurrence of the word json as
well, so text that is not an enclosing marker is altered. -/
theorem C7_counterexample :
    generate_citation_llm_fallback llmFence itemFull "apa" =
      "\nSmith, J. (2020). A  guide.\n" ∧
    "\nSmith, J. (2020). A  guide.\n" ≠ "\nSmith, J. (2020). A json guide.\n" := by
  decide

/-- Claim C7 (amended): post-processing deletes every occurrence of the
three markers (triple backtick, json, plaintext) from the stripped
reply.  In particular, when the reply is exactly a fenced, json-tagged
body whose text contains no backtick and no occurrence of the tag words,
the returned citation is exactly the inner body — the enclosing fence
and tag are removed and the rest is unchanged.  Interior occurrences of
the tag words, when present, are removed too (see the
counterexample). -/
theorem C7_fence_stripping (llm : LlmEnv) (item : CitationItemSchema)
    (style body : String)
    (hkey : llm.gemini_api_key ≠ "")
    (hc : llm.chat_completion item style = .ok ("```json" ++ body ++ "```"))
    (hbt : ∀ a ∈ body.data, a ≠ '`')
    (hj : pyIn "json" body = false)
    (hpl : pyIn "plaintext" body = false) :
    generate_citation_llm_fallback llm item style = body := by
  have hkey' : (llm.gemini_api_key == "") = false := by simpa using hkey
  have hgoal : generate_citation_llm_fallback llm item style =
      pyReplace (pyReplace (pyReplace (pyStrip ("```json" ++ body ++ "```"))
        "```" "") "json" "") "plaintext" "" := by
    simp [generate_citation_llm_fallback, hkey', hc]
  have hdata : ("```json" ++ body ++ "```").data =
      '`' :: ((['`', '`', 'j', 's', 'o', 'n'] ++ body.data ++ ['`', '`']) ++ ['`']) := by
    show ("```json".data ++ body.data) ++ "```".data = _
    simp [List.append_assoc]
  have hstrip : pyStrip ("```json" ++ body ++ "```") = "```json" ++ body ++ "```" := by
    show (⟨stripData ("```json" ++ body ++ "```").data⟩ : String) =
      "```json" ++ body ++ "```"
    rw [hdata, stripData_ends '`' '`' (by decide) (by decide), ← hdata]
  have hdata2 : ("```json" ++ body ++ "```").data =
      ['`', '`', '`'] ++ (('j' :: 's' :: 'o' :: 'n' :: body.data) ++ ['`', '`', '`']) := by
    show ("```json".data ++ body.data) ++ "```".data = _
    simp [List.append_assoc]
  have hdisj : ∀ a ∈ ('`' :: ['`', '`']), a ∉ ('j' :: 's' :: 'o' :: 'n' :: body.data) := by
    intro a ha
    have ha' : a = '`' := by
      simp at ha
      exact ha
    subst ha'
    intro hmem
    simp only [List.mem_cons] at hmem
    rcases hmem with h | h | h | h | h
    · exact absurd h (by decide)
    · exact absurd h (by decide)
    · exact absurd h (by decide)
    · exact absurd h (by decide)
    · exact hbt '`' h rfl
  have hB : pyReplace ("```json" ++ body ++ "```") "```" "" =
      ⟨'j' :: 's' :: 'o' :: 'n' :: body.data⟩ := by
    show (⟨replaceAll ['`', '`', '`'] [] ("```json" ++ body ++ "```").data⟩ : String) = _
    apply congrArg String.mk
    rw [hdata2, replaceAll_append_self '`' ['`', '`'] [], List.nil_append,
      replaceAll_append_of_disjoint '`' ['`', '`'] [] ['`', '`', '`'] hdisj]
    have hself : replaceAll ['`', '`', '`'] [] ['`', '`', '`'] = [] := by decide
    rw [hself, List.append_nil]
  have hC : pyReplace ⟨'j' :: 's' :: 'o' :: 'n' :: body.data⟩ "json" "" = body := by
    show (⟨replaceAll ['j', 's', 'o', 'n'] [] ('j' :: 's' :: 'o' :: 'n' :: body.data)⟩ :
      String) = body
    apply congrArg String.mk
    rw [show ('j' :: 's' :: 'o' :: 'n' :: body.data) = ['j', 's', 'o', 'n'] ++ body.data
      from rfl]
    rw [replaceAll_append_self 'j' ['s', 'o', 'n'] [], List.nil_append]
    exact replaceAll_of_not_contains 'j' ['s', 'o', 'n'] [] hj
  have hD : pyReplace body "plaintext" "" = body := by
    show (⟨replaceAll ['p', 'l', 'a', 'i', 'n', 't', 'e', 'x', 't'] [] body.data⟩ :
      String) = body
    exact congrArg String.mk
      (replaceAll_of_not_contains 'p' ['l', 'a', 'i', 'n', 't', 'e', 'x', 't'] [] hpl)
  rw [hgoal, hstrip, hB, hC, hD]

/-- Witness for C7: the amended theorem applied at a concrete fenced
reply whose body has no interior marker occurrences. -/
theorem C7_fence_stripping_witness :
    generate_citation_llm_fallback
        (llmGood "```json\nVaswani, A. (2017). Attention.\n```") itemFull "apa" =
      "\nVaswani, A. (2017). Attention.\n" :=
  C7_fence_stripping (llmGood "```json\nVaswani, A. (2017). Attention.\n```")
    itemFull "apa" "\nVaswani, A. (2017). Attention.\n"
    (by decide) (by rfl) (by decide) (by decide) (by decide)

/-! ## Claim C8 -/

/-- Claim C8: the rules engine's render is deterministic and idempotent:
with a fixed environment (style-definition store and CSL processor), any
two calls at equal records and equal style names return the identical
output, be it a citation string or a failure sentinel; the embedding
carries no hidden mutable state for it to depend on. -/
theorem C8_render_deterministic (env : CslEnv) (r1 r2 : CitationItemSchema)
    (s1 s2 : String) (h1 : r1 = r2) (h2 : s1 = s2) :
    generate_citation_csl env r1 s1 = generate_citation_csl env r2 s2 := by
  rw [h1, h2]

/-- Witness for C8: two identical calls at a concrete record agree. -/
theorem C8_render_deterministic_witness :
    generate_citation_csl (cslApa "Vaswani, A. (2017). Attention.") itemFull "apa" =
      generate_citation_csl (cslApa "Vaswani, A. (2017). Attention.") itemFull "apa" :=
  C8_render_deterministic (cslApa "Vaswani, A. (2017). Attention.")
    itemFull itemFull "apa" "apa" rfl rfl

/-! ## Claim C9 -/

/-- Claim C9: style resolution at the endpoint is case-insensitive: the
style name is lowercased before the rules-engine lookup, so two style
names equal up to letter case produce the same style-file lookup and the
same rules-engine result. -/
theorem C9_style_case_insensitive (csl : CslEnv) (item : CitationItemSchema)
    (s1 s2 : String) (h : pyLower s1 = pyLower s2) :
    csl.path_exists (style_path (pyLower s1)) =
      csl.path_exists (style_path (pyLower s2)) ∧
    generate_citation_csl csl item (pyLower s1) =
      generate_citation_csl csl item (pyLower s2) := by
  rw [h]
  exact ⟨rfl, rfl⟩

/-- Witness for C9: `APA` and `apa` resolve identically. -/
theorem C9_style_case_insensitive_witness :
    cslDown.path_exists (style_path (pyLower "APA")) =
      cslDown.path_exists (style_path (pyLower "apa")) ∧
    generate_citation_csl cslDown itemFull (pyLower "APA") =
      generate_citation_csl cslDown itemFull (pyLower "apa") :=
  C9_style_case_insensitive cslDown itemFull "APA" "apa" (by decide)

/-! ## Claim C10 -/

/-- Claim C10: every successful endpoint response, on both the rules
path and the fallback path, has `source_id` equal to the input record's
id unchanged and `style` equal to the uppercased requested style
name. -/
theorem C10_response_invariants (csl : CslEnv) (llm : LlmEnv)
    (item : CitationItemSchema) (style st cit src sid : String)
    (h : generate_citation_endpoint csl llm item style = .ok st cit src sid) :
    sid = item.id ∧ st = pyUpper style := by
  unfold generate_citation_endpoint at h
  by_cases h1 : fallback_condition (generate_citation_csl csl item (pyLower style)) = true
  · simp only [h1, if_true] at h
    by_cases h2 : pyIn "LLM_ERROR" (generate_citation_llm_fallback llm item style) = true
    · simp [h2] at h
    · simp [h2] at h
      exact ⟨h.2.2.2.symm, h.1.symm⟩
  · simp [h1] at h
    exact ⟨h.2.2.2.symm, h.1.symm⟩

/-- Witness for C10: a concrete successful rules-path response. -/
theorem C10_response_invariants_witness :
    "X1" = itemFull.id ∧ "APA" = pyUpper "apa" :=
  C10_response_invariants (cslApa "Vaswani, A. (2017). Attention.") (llmGood "g")
    itemFull "apa" "APA" "Vaswani, A. (2017). Attention."
    "CSL_RULES (High Accuracy)" "X1" (by decide)
